import Mathlib

/-!
Verification of the HELIOS ETF FLOW core against its specification.

Shallow embedding of the rolling-baseline normalization and composite scoring
engine (src/helios/normalization, src/helios/scoring, src/helios/core) and of
the backfill orchestration (src/helios/pipeline/daily.py).

Modelling conventions:
* Python floats are modelled as exact rationals (ℚ); dates as naturals.
* Python dicts (with insertion-order iteration) are association lists.
* `numpy` sample standard deviation is the square root of the sample variance
  (ddof = 1).  Square roots of rationals are irrational in general, so every
  function that needs a standard deviation takes the square-root operation
  `sq : ℚ → ℚ` as an explicit parameter; theorems quantify over `sq` or
  constrain it pointwise, and concrete evaluations use `ratSqrt`, an exact
  integer-Newton square root that agrees with the floating-point square root
  on the perfect squares (and at zero) used in those evaluations.
* Rendering of explanation text is an external collaborator (spec §6); the
  explanation slot of a result is modelled as the exact tuple of inputs the
  code hands to the renderer, which is deterministic in them.
-/

/-- Suffix of the last `n` elements, in order: the contents of a Python
`deque(maxlen := n)` after appending the elements of `l` one by one. -/
def takeLast (n : ℕ) (l : List α) : List α := l.drop (l.length - n)

/- `Rat.add`, `Rat.mul`, `Rat.inv` and `Rat.sub` are `@[irreducible]` in
Batteries, which blocks `decide` from evaluating concrete rational
arithmetic; restoring default reducibility lets concrete evaluations reduce
(the kernel is unaffected by reducibility annotations). -/
set_option allowUnsafeReducibility true
attribute [semireducible] Rat.add Rat.mul Rat.inv Rat.sub


/-! ### Core enums (src/helios/core/types.py) -/

/-- `AllocationState` (src/helios/core/types.py): the five discrete
allocation states. -/
inductive AllocationState where
  | OVERWEIGHT
  | ACCUMULATING
  | NEUTRAL
  | DECREASING
  | UNDERWEIGHT
deriving DecidableEq, Repr

/-- `BaselineStatus` (src/helios/core/types.py): completeness of the
baseline normalization for one entity on one day. -/
inductive BaselineStatus where
  | COMPLETE
  | PARTIAL
  | INSUFFICIENT
deriving DecidableEq, Repr

/-- `AllocationState.from_cas` (src/helios/core/types.py lines 35-55):
classify a composite allocation score by the frozen threshold chain. -/
def AllocationState.from_cas (cas : ℚ) : AllocationState :=
  if cas > 1 then .OVERWEIGHT
  else if cas > 3/10 then .ACCUMULATING
  else if cas ≥ -(3/10) then .NEUTRAL
  else if cas ≥ -1 then .DECREASING
  else .UNDERWEIGHT

/-- `classify_state` (src/helios/scoring/classifier.py): delegates to
`AllocationState.from_cas`. -/
def classify_state (cas : ℚ) : AllocationState :=
  AllocationState.from_cas cas

/-! ### Frozen constants (src/helios/core/constants.py) -/

def ROLLING_WINDOW : ℕ := 63

def MIN_OBSERVATIONS : ℕ := 21

/-- `WEIGHTS` (src/helios/core/constants.py lines 18-21), in dict insertion
order: AP 0.60, RS 0.40. -/
def WEIGHTS : List (String × ℚ) := [("AP", 6/10), ("RS", 4/10)]

def SECTOR_UNIVERSE : List String :=
  ["XLY", "XLI", "XLF", "XLE", "XLK", "XLP", "XLV", "XLU", "XLB", "XLRE", "AGG"]

def BENCHMARK_TICKER : String := "SPY"

def FEATURE_NAMES : List String := ["AP", "RS"]

/-! ### Square-root stand-in

Integer Newton iteration; `ratSqrt` is exact on perfect squares (numerator
and denominator), which covers every concrete standard deviation evaluated
in this file, and is positive on positive inputs like the floating-point
square root it stands in for. -/

def sqrtIter (n : ℕ) : ℕ → ℕ → ℕ
  | guess, fuel + 1 =>
      let next := (guess + n / guess) / 2
      if next < guess then sqrtIter n next fuel else guess
  | guess, 0 => guess

def natSqrtApprox (n : ℕ) : ℕ := sqrtIter n n 4096

def ratSqrt (q : ℚ) : ℚ :=
  (natSqrtApprox q.num.toNat : ℚ) / (natSqrtApprox q.den : ℚ)

/-! ### Rolling statistics (src/helios/normalization/rolling.py) -/

/-- `RollingStats` (src/helios/normalization/rolling.py lines 21-50): a
fixed-capacity window of observations for one feature.  The two deques
(`maxlen = window`) are lists holding at most `window` elements, newest
last. -/
structure RollingStats where
  feature_name : String
  window : ℕ
  min_observations : ℕ
  values : List ℚ
  dates : List ℕ
deriving DecidableEq, Repr

namespace RollingStats

/-- Fresh window, as built by `SectorRollingCalculator.__init__`. -/
def mkStats (name : String) (window minObs : ℕ) : RollingStats :=
  { feature_name := name, window := window, min_observations := minObs,
    values := [], dates := [] }

/-- `RollingStats.add`: `deque.append` with `maxlen = window` keeps the last
`window` elements. -/
def add (s : RollingStats) (value : ℚ) (trade_date : ℕ) : RollingStats :=
  { s with values := takeLast s.window (s.values ++ [value]),
           dates := takeLast s.window (s.dates ++ [trade_date]) }

def count (s : RollingStats) : ℕ := s.values.length

def is_ready (s : RollingStats) : Bool := s.count ≥ s.min_observations

/-- `RollingStats.mean`: `np.mean` of the window, `None` below readiness. -/
def mean (s : RollingStats) : Option ℚ :=
  if s.is_ready then some (s.values.sum / (s.count : ℚ)) else none

/-- Sample variance of a list (the square of `np.std(·, ddof = 1)`). -/
def sampleVar (l : List ℚ) : ℚ :=
  ((l.map fun x => (x - l.sum / (l.length : ℚ)) ^ 2).sum) / ((l.length : ℚ) - 1)

/-- `RollingStats.std`: `np.std(values, ddof = 1)`, i.e. the square root of
the sample variance, `None` below readiness.  `sq` models the square root. -/
def std (sq : ℚ → ℚ) (s : RollingStats) : Option ℚ :=
  if s.is_ready then some (sq (sampleVar s.values)) else none

end RollingStats

/-! ### Sector-level calculator (src/helios/normalization/rolling.py) -/

/-- `SectorRollingCalculator` (src/helios/normalization/rolling.py lines
103-270): one `RollingStats` per (ticker, feature); both dicts are
association lists in insertion order. -/
structure SectorRollingCalculator where
  window : ℕ
  min_observations : ℕ
  stats : List (String × List (String × RollingStats))
deriving DecidableEq, Repr

namespace SectorRollingCalculator

/-- `SectorRollingCalculator.__init__`. -/
def mkCalc (tickers feature_names : List String) (window minObs : ℕ) :
    SectorRollingCalculator :=
  { window := window, min_observations := minObs,
    stats := tickers.map fun t =>
      (t, feature_names.map fun f => (f, RollingStats.mkStats f window minObs)) }

/-- `SectorRollingCalculator.get_stats`: dict lookup, `None` if untracked. -/
def get_stats (c : SectorRollingCalculator) (ticker feature_name : String) :
    Option RollingStats :=
  match c.stats.lookup ticker with
  | none => none
  | some fs => fs.lookup feature_name

/-- `SectorRollingCalculator.add_observation`: for each tracked feature
present in `features`, append the value to that feature's window.  The
caller passes a dict of floats (callers filter out `None` before calling,
so every carried value is a number). -/
def add_observation (c : SectorRollingCalculator) (ticker : String)
    (trade_date : ℕ) (features : List (String × ℚ)) :
    SectorRollingCalculator :=
  match c.stats.lookup ticker with
  | none => c
  | some _ =>
    { c with stats := c.stats.map fun p =>
        if p.1 = ticker then
          (p.1, features.foldl (fun fs nv =>
            fs.map fun q => if q.1 = nv.1 then (q.1, q.2.add nv.2 trade_date) else q) p.2)
        else p }

/-- `SectorRollingCalculator.get_zscore` (lines 177-202): `None` when the
window is untracked, not ready, or its standard deviation is zero; else
`(value - mean) / std` with no clipping. -/
def get_zscore (sq : ℚ → ℚ) (c : SectorRollingCalculator)
    (ticker feature_name : String) (value : ℚ) : Option ℚ :=
  match c.get_stats ticker feature_name with
  | none => none
  | some stats =>
    if ¬ stats.is_ready then none
    else
      match stats.mean, stats.std sq with
      | some m, some sd => if sd = 0 then none else some ((value - m) / sd)
      | _, _ => none

end SectorRollingCalculator

/-- `zscore_normalize` (src/helios/normalization/methods.py lines 23-51):
returns 0.0 when the standard deviation is zero (the NaN guard of the source
has no ℚ counterpart); otherwise the unclipped z-score. -/
def zscore_normalize (value mean std : ℚ) : ℚ :=
  if std = 0 then 0 else (value - mean) / std

/-! ### Result records and feature sets (src/helios/core/types.py) -/

/-- `SectorFeatureSet` (src/helios/core/types.py lines 161-195): raw inputs
for one sector on one day; absent observations are `none`. -/
structure SectorFeatureSet where
  ticker : String
  trade_date : ℕ
  net_flow : Option ℚ := none
  etf_return : Option ℚ := none
  spy_return : Option ℚ := none
  excess_return : Option ℚ := none
deriving DecidableEq, Repr

/-- The data `HeliosEngine.calculate_sector` hands to the explanation
renderer (`ExplanationGenerator.generate`, src/helios/explain/generator.py).
Text rendering itself is an external collaborator (spec §6) and is a
deterministic function of exactly these inputs, so the explanation slot is
modelled by this record. -/
structure ExplainData where
  ticker : String
  state : AllocationState
  ap_zscore : Option ℚ
  rs_zscore : Option ℚ
  excluded : List String
  status : BaselineStatus
deriving DecidableEq, Repr

/-- `SectorResult` (src/helios/core/types.py lines 83-117): immutable
per-sector-per-day record. -/
structure SectorResult where
  ticker : String
  allocation_score : ℚ
  state : AllocationState
  explanation : ExplainData
  ap_zscore : ℚ
  rs_zscore : ℚ
  ap_raw : ℚ
  rs_raw : ℚ
  status : BaselineStatus
deriving DecidableEq, Repr

/-- `HeliosResult` (src/helios/core/types.py lines 120-158): immutable
per-day aggregate (the spec's DailyResult). -/
structure HeliosResult where
  trade_date : ℕ
  sectors : List SectorResult
  status : BaselineStatus
deriving DecidableEq, Repr

/-! ### Composite scorer (src/helios/scoring/composite.py) -/

/-- `calculate_cas` (src/helios/scoring/composite.py lines 16-41): iterate
the frozen weight table; a feature absent from the z-score map is skipped,
with no renormalization of the remaining weights. -/
def calculate_cas (z_scores : List (String × ℚ)) : ℚ :=
  WEIGHTS.foldl
    (fun weighted_sum nw =>
      match z_scores.lookup nw.1 with
      | none => weighted_sum
      | some z => weighted_sum + nw.2 * z)
    0

/-! ### Normalization pipeline (src/helios/normalization/pipeline.py) -/

namespace NormalizationPipeline

/-- The pipeline constructed by `DailyPipeline.__init__`: a
`SectorRollingCalculator` over the full universe and feature set with the
frozen window parameters. -/
def freshCalc : SectorRollingCalculator :=
  SectorRollingCalculator.mkCalc SECTOR_UNIVERSE FEATURE_NAMES
    ROLLING_WINDOW MIN_OBSERVATIONS

/-- The feature loop of `normalize_sector` (src/helios/normalization/
pipeline.py lines 135-144): per feature, a missing raw value or an undefined
z-score marks the feature excluded, otherwise the z-score is recorded;
outputs keep iteration order. -/
def normStep (sq : ℚ → ℚ) (c : SectorRollingCalculator) (ticker : String) :
    List (String × Option ℚ) → List (String × ℚ) × List String
  | [] => ([], [])
  | (name, raw) :: rest =>
    let acc := normStep sq c ticker rest
    match raw with
    | none => (acc.1, name :: acc.2)
    | some v =>
      match c.get_zscore sq ticker name v with
      | none => (acc.1, name :: acc.2)
      | some z => ((name, z) :: acc.1, acc.2)

/-- `normalize_sector` (src/helios/normalization/pipeline.py lines 111-154):
returns (z-scores, excluded features, `BaselineStatus`). -/
def normalize_sector (sq : ℚ → ℚ) (c : SectorRollingCalculator)
    (ticker : String) (features : SectorFeatureSet) :
    List (String × ℚ) × List String × BaselineStatus :=
  let feature_values : List (String × Option ℚ) :=
    [("AP", features.net_flow), ("RS", features.excess_return)]
  let (z_scores, excluded) := normStep sq c ticker feature_values
  let status :=
    if z_scores.length = FEATURE_NAMES.length then BaselineStatus.COMPLETE
    else if z_scores.length > 0 then BaselineStatus.PARTIAL
    else BaselineStatus.INSUFFICIENT
  (z_scores, excluded, status)

/-- `NormalizationPipeline.add_observation` (lines 176-193): only the
non-missing raw features are pushed into the rolling baselines; nothing is
pushed when both are missing. -/
def add_observation (c : SectorRollingCalculator) (ticker : String)
    (features : SectorFeatureSet) : SectorRollingCalculator :=
  let feature_values : List (String × ℚ) :=
    (match features.net_flow with
     | some v => [("AP", v)]
     | none => []) ++
    (match features.excess_return with
     | some v => [("RS", v)]
     | none => [])
  if feature_values.isEmpty then c
  else c.add_observation ticker features.trade_date feature_values

end NormalizationPipeline

/-! ### Scoring engine (src/helios/scoring/engine.py) -/

namespace HeliosEngine

/-- `HeliosEngine.calculate_sector` (src/helios/scoring/engine.py lines
52-110): normalize against the current baselines, score, classify (forcing
NEUTRAL on INSUFFICIENT), build the explanation inputs, then - and only
then - fold the day's raw values into the baselines.  Python's
`features.net_flow or 0.0` agrees with `Option.getD 0` on ℚ. -/
def calculate_sector (sq : ℚ → ℚ) (c : SectorRollingCalculator)
    (features : SectorFeatureSet) : SectorResult × SectorRollingCalculator :=
  let ticker := features.ticker
  let norm := NormalizationPipeline.normalize_sector sq c ticker features
  let z_scores := norm.1
  let excluded := norm.2.1
  let status := norm.2.2
  let cas := calculate_cas z_scores
  let state :=
    if status = BaselineStatus.INSUFFICIENT then AllocationState.NEUTRAL
    else classify_state cas
  let ap_z := (z_scores.lookup "AP").getD 0
  let rs_z := (z_scores.lookup "RS").getD 0
  let explanation : ExplainData :=
    { ticker := ticker, state := state,
      ap_zscore := if "AP" ∈ excluded then none else some ap_z,
      rs_zscore := if "RS" ∈ excluded then none else some rs_z,
      excluded := excluded, status := status }
  let c' := NormalizationPipeline.add_observation c ticker features
  ({ ticker := ticker, allocation_score := cas, state := state,
     explanation := explanation, ap_zscore := ap_z, rs_zscore := rs_z,
     ap_raw := features.net_flow.getD 0, rs_raw := features.excess_return.getD 0,
     status := status }, c')

/-- The per-sector loop of `calculate_all` (lines 130-141), threading the
mutable rolling state through the sectors in dict order. -/
def calcLoop (sq : ℚ → ℚ) (c : SectorRollingCalculator) :
    List SectorFeatureSet → List SectorResult × SectorRollingCalculator
  | [] => ([], c)
  | f :: rest =>
    let r := calculate_sector sq c f
    let tail := calcLoop sq r.2 rest
    (r.1 :: tail.1, tail.2)

/-- `HeliosEngine.calculate_all` (src/helios/scoring/engine.py lines
112-159).  `today` models `date.today()`, used only when the feature map is
empty.  The overall status mirrors Python's `all(...)` over the list of
per-sector statuses, which is vacuously true on an empty list. -/
def calculate_all (sq : ℚ → ℚ) (c : SectorRollingCalculator)
    (all_features : List SectorFeatureSet) (today : ℕ) :
    HeliosResult × SectorRollingCalculator :=
  let (sector_results, c') := calcLoop sq c all_features
  let overall_status :=
    if sector_results.all fun r => r.status = BaselineStatus.COMPLETE then
      BaselineStatus.COMPLETE
    else if sector_results.all fun r => r.status = BaselineStatus.INSUFFICIENT then
      BaselineStatus.INSUFFICIENT
    else BaselineStatus.PARTIAL
  let trade_date :=
    match all_features with
    | [] => today
    | f :: _ => f.trade_date
  ({ trade_date := trade_date, sectors := sector_results,
     status := overall_status }, c')

end HeliosEngine

/-! ### Feature aggregation (src/helios/features/aggregator.py,
allocation_pressure.py, relative_strength.py) -/

namespace FeatureAggregator

/-- `FeatureAggregator.calculate_all` (src/helios/features/aggregator.py
lines 58-98) with `AllocationPressure.calculate` (pass-through of the raw
flow) and `RelativeStrength.calculate` (excess return = etf - spy, missing
when either operand is missing) inlined. -/
def calculate_all (trade_date : ℕ) (flows returns : List (String × ℚ))
    (spy_return : Option ℚ) : List SectorFeatureSet :=
  SECTOR_UNIVERSE.map fun ticker =>
    let net_flow := flows.lookup ticker
    let etf_return := returns.lookup ticker
    { ticker := ticker, trade_date := trade_date, net_flow := net_flow,
      etf_return := etf_return, spy_return := spy_return,
      excess_return :=
        match etf_return, spy_return with
        | some e, some s => some (e - s)
        | _, _ => none }

end FeatureAggregator

/-! ### Daily pipeline (src/helios/pipeline/daily.py) -/

/-- One row of a price DataFrame (`date, open, high, low, close, volume`);
only the columns the core reads are modelled, and `open` is reserved in
Lean, hence `open_`. -/
structure PriceRow where
  date : ℕ
  open_ : ℚ
  close : ℚ
  volume : ℚ
deriving DecidableEq, Repr

/-- One row of the persisted history table (the dict built at
src/helios/pipeline/daily.py lines 224-236). -/
structure HistRow where
  date : ℕ
  ticker : String
  allocation_score : ℚ
  state : AllocationState
  ap_zscore : ℚ
  rs_zscore : ℚ
  ap_raw : ℚ
  rs_raw : ℚ
  explanation : ExplainData
  status : BaselineStatus
deriving DecidableEq, Repr

namespace DailyPipeline

def mkHistRow (d : ℕ) (s : SectorResult) : HistRow :=
  { date := d, ticker := s.ticker, allocation_score := s.allocation_score,
    state := s.state, ap_zscore := s.ap_zscore, rs_zscore := s.rs_zscore,
    ap_raw := s.ap_raw, rs_raw := s.rs_raw, explanation := s.explanation,
    status := s.status }

/-- The `sector_flows` dict of `_process_all_days` (lines 185-201):
DollarFlow = volume * (close - open) for every universe ticker with a row
on `day`. -/
def flowsFor (prices : List (String × List PriceRow)) (day : ℕ) :
    List (String × ℚ) :=
  SECTOR_UNIVERSE.filterMap fun t =>
    match prices.lookup t with
    | none => none
    | some df =>
      (df.find? fun r => r.date == day).map fun r =>
        (t, r.volume * (r.close - r.open_))

/-- The `sector_returns` dict of `_process_all_days` (lines 203-208):
day-over-day close return for every universe ticker with rows on both
days. -/
def returnsFor (prices : List (String × List PriceRow)) (day prior : ℕ) :
    List (String × ℚ) :=
  SECTOR_UNIVERSE.filterMap fun t =>
    match prices.lookup t with
    | none => none
    | some df =>
      match df.find? (fun r => r.date == day), df.find? (fun r => r.date == prior) with
      | some rt, some rp => some (t, rt.close / rp.close - 1)
      | _, _ => none

/-- Accumulator of the day loop of `_process_all_days`: the rolling state,
the collected history rows, and the most recent day's result. -/
structure DayAcc where
  rcalc : SectorRollingCalculator
  rows : List HistRow
  lastResult : Option HeliosResult
deriving Repr

/-- One iteration of the day loop of `_process_all_days` (lines 171-239)
for the consecutive date pair (prior_day, day): benchmark return, per-sector
features, scoring (which also feeds the rolling windows), history rows. -/
def processDay (sq : ℚ → ℚ) (prices : List (String × List PriceRow))
    (spy_df : List PriceRow) (today : ℕ) (acc : DayAcc) (pd : ℕ × ℕ) :
    DayAcc :=
  let prior_day := pd.1
  let day := pd.2
  match spy_df.find? (fun r => r.date == day),
        spy_df.find? (fun r => r.date == prior_day) with
  | some spy_t, some spy_p =>
    let spy_return := spy_t.close / spy_p.close - 1
    let flows := flowsFor prices day
    let rets := returnsFor prices day prior_day
    let all_features :=
      FeatureAggregator.calculate_all day flows rets (some spy_return)
    let rc := HeliosEngine.calculate_all sq acc.rcalc all_features today
    { rcalc := rc.2,
      rows := acc.rows ++ rc.1.sectors.map (mkHistRow rc.1.trade_date),
      lastResult := some rc.1 }
  | _, _ => acc

/-- `DailyPipeline._process_all_days` (lines 135-251).  Missing or
too-short benchmark series short-circuits to scoring an empty feature map.
Returns (target-day result as the code computes it, collected history rows,
final rolling state). -/
def processAllDays (sq : ℚ → ℚ) (c : SectorRollingCalculator)
    (prices : List (String × List PriceRow)) (today : ℕ) :
    HeliosResult × List HistRow × SectorRollingCalculator :=
  let noSpy := fun (c : SectorRollingCalculator) =>
    let rc := HeliosEngine.calculate_all sq c [] today
    (rc.1, ([] : List HistRow), rc.2)
  match prices.lookup BENCHMARK_TICKER with
  | none => noSpy c
  | some spy_df =>
    if spy_df.length < 2 then noSpy c
    else
      let td := List.insertionSort (fun a b => a ≤ b) (spy_df.map (·.date))
      let acc := (td.zip td.tail).foldl (processDay sq prices spy_df today)
        ⟨c, [], none⟩
      match acc.lastResult with
      | some r => (r, acc.rows, acc.rcalc)
      | none =>
        let rc := HeliosEngine.calculate_all sq acc.rcalc [] today
        (rc.1, acc.rows, rc.2)

/-- The `(date, ticker)` de-duplication of `_save_history` (line 257),
keeping the last write, preserving the order of the kept rows. -/
def dedupKeepLast : List HistRow → List HistRow
  | [] => []
  | r :: rest =>
    if rest.any fun x => x.date == r.date && x.ticker == r.ticker then
      dedupKeepLast rest
    else r :: dedupKeepLast rest

/-- `NormalizationPipeline.load_history` (src/helios/normalization/
pipeline.py lines 62-109) plus `SectorRollingCalculator.load_from_history`:
rows strictly before `upTo`, grouped per universe ticker in file order, are
replayed into the rolling windows.  Persisted `ap_raw` / `rs_raw` are always
numbers (missing values were stored as 0.0), so both features load. -/
def loadHistory (c : SectorRollingCalculator)
    (histFile : Option (List HistRow)) (upTo : ℕ) : SectorRollingCalculator :=
  match histFile with
  | none => c
  | some rows =>
    let past := rows.filter fun r => r.date < upTo
    SECTOR_UNIVERSE.foldl
      (fun c t =>
        (past.filter fun r => r.ticker == t).foldl
          (fun c r =>
            c.add_observation t r.date [("AP", r.ap_raw), ("RS", r.rs_raw)])
          c)
      c

/-- `DailyPipeline.run` (src/helios/pipeline/daily.py lines 68-108) minus
the network fetch: fresh pipeline state, load persisted history up to the
target date, process all fetched days, persist the accumulated rows
wholesale (`_save_history` is only reached when rows were collected;
otherwise the previous file is left untouched).  Returns the target-day
result and the history file after the run. -/
def run (sq : ℚ → ℚ) (histFile : Option (List HistRow))
    (prices : List (String × List PriceRow)) (trade_date today : ℕ) :
    HeliosResult × Option (List HistRow) :=
  let c0 := NormalizationPipeline.freshCalc
  let c1 := loadHistory c0 histFile trade_date
  let prc := processAllDays sq c1 prices today
  let rows := prc.2.1
  let histOut := if rows.isEmpty then histFile else some (dedupKeepLast rows)
  (prc.1, histOut)

end DailyPipeline

/-! ### Concrete fixtures for evaluations -/

/-- 23 benchmark price rows, dates 0..22, constant close. -/
def spyRows : List PriceRow :=
  (List.range 23).map fun i => { date := i, open_ := 1, close := 1, volume := 1 }

/-- 23 XLK price rows with alternating closes, so both features vary. -/
def xlkRows : List PriceRow :=
  (List.range 23).map fun i =>
    { date := i, open_ := 0, close := if i % 2 = 0 then 1 else 2, volume := 1 }

/-- Price tables holding only the benchmark and one sector. -/
def pricesEx : List (String × List PriceRow) :=
  [("SPY", spyRows), ("XLK", xlkRows)]
/-- A single-ticker, single-feature calculator for concrete evaluations. -/
def mkCalcXLK_AP : SectorRollingCalculator :=
  SectorRollingCalculator.mkCalc ["XLK"] ["AP"] 63 21

/-- Feed enumerated (date, value) observations of feature AP for XLK. -/
def foldAddAP (c : SectorRollingCalculator) (l : List (ℕ × ℚ)) :
    SectorRollingCalculator :=
  l.foldl (fun c p => c.add_observation "XLK" p.1 [("AP", p.2)]) c

/-- 21 observations with mean 100 and sample variance 100 (std 10):
ten 90s, ten 110s, one 100. -/
def exampleWindowValues : List ℚ :=
  List.replicate 10 90 ++ List.replicate 10 110 ++ [100]

/-- Ready window with mean 100, std 10 (the spec's worked example). -/
def exampleCalc : SectorRollingCalculator :=
  foldAddAP mkCalcXLK_AP exampleWindowValues.enum

/-- Ready window of 21 identical values: sample variance, hence standard
deviation, exactly zero. -/
def zeroStdCalc : SectorRollingCalculator :=
  foldAddAP mkCalcXLK_AP (List.replicate 21 (7 : ℚ)).enum

/-- Window one observation short of readiness (20 of the 21 required). -/
def lowCalc : SectorRollingCalculator :=
  foldAddAP mkCalcXLK_AP ((List.range 20).map fun i => (i, (i : ℚ)))

/-- Two-feature calculator one observation short of readiness on both
features, used to show that scoring order is observable. -/
def calc20 : SectorRollingCalculator :=
  (List.range 20).foldl
    (fun c i => c.add_observation "XLK" i [("AP", (i : ℚ)), ("RS", (i : ℚ))])
    (SectorRollingCalculator.mkCalc ["XLK"] ["AP", "RS"] 63 21)

/-- Day-21 feature set for `calc20`: both raw features present. -/
def f20 : SectorFeatureSet :=
  { ticker := "XLK", trade_date := 20, net_flow := some 5,
    etf_return := some 3, spy_return := some 0, excess_return := some 3 }

/-- Find the persisted row of one (date, ticker) pair. -/
def findHistRow (rows : List HistRow) (d : ℕ) (t : String) : Option HistRow :=
  rows.find? fun r => r.date == d && r.ticker == t

/-- Feature set with both raw observations missing. -/
def fEmpty : SectorFeatureSet := { ticker := "XLK", trade_date := 0 }

/-- The window `exampleCalc` holds for ("XLK", "AP"). -/
def exampleStats : RollingStats :=
  { feature_name := "AP", window := 63, min_observations := 21,
    values := exampleWindowValues, dates := List.range 21 }

/-- The window `lowCalc` holds for ("XLK", "AP"): 20 observations. -/
def lowStats : RollingStats :=
  { feature_name := "AP", window := 63, min_observations := 21,
    values := (List.range 20).map fun i => (i : ℚ),
    dates := List.range 20 }

/-- The window `zeroStdCalc` holds for ("XLK", "AP"). -/
def zeroStdStats : RollingStats :=
  { feature_name := "AP", window := 63, min_observations := 21,
    values := List.replicate 21 (7 : ℚ), dates := List.range 21 }

/-- A benchmark series with a single row (fewer than two). -/
def pricesOneSpyRow : List (String × List PriceRow) :=
  [("SPY", [{ date := 0, open_ := 1, close := 1, volume := 1 }])]

/-- History file persisted by a first backfill run over `pricesEx` from a
fresh state (no pre-existing history). -/
def run1HistEx : List HistRow :=
  ((DailyPipeline.run ratSqrt none pricesEx 22 7).2).getD []

/-- History file persisted by a second, identical-input backfill run that
starts from the first run's persisted history. -/
def run2HistEx : List HistRow :=
  ((DailyPipeline.run ratSqrt (some run1HistEx) pricesEx 22 7).2).getD []

/-- Fold a list of (value, date) pairs into one rolling window. -/
def addAll (s : RollingStats) (ps : List (ℚ × ℕ)) : RollingStats :=
  ps.foldl (fun s p => s.add p.1 p.2) s
theorem takeLast_length (n : ℕ) (l : List α) :
    (takeLast n l).length = min l.length n := by
  simp only [takeLast, List.length_drop]
  omega

theorem takeLast_of_le {n : ℕ} {l : List α} (h : l.length ≤ n) :
    takeLast n l = l := by
  simp [takeLast, Nat.sub_eq_zero_of_le h]

theorem takeLast_append_singleton (W : ℕ) (l : List α) (v : α) :
    takeLast W (takeLast W l ++ [v]) = takeLast W (l ++ [v]) := by
  rcases le_or_lt l.length W with h | h
  · rw [takeLast_of_le h]
  · rcases Nat.eq_zero_or_pos W with hW | hW
    · subst hW
      simp [takeLast]
    · have hdl : (List.drop (l.length - W) l).length = W := by
        rw [List.length_drop]; omega
      simp only [takeLast, List.length_append, List.length_cons,
        List.length_nil, hdl, List.drop_append_eq_append_drop, List.drop_drop]
      have e1 : l.length - W + (W + (0 + 1) - W) = l.length + (0 + 1) - W := by
        omega
      have e2 : W + (0 + 1) - W - W = l.length + (0 + 1) - W - l.length := by
        omega
      rw [e1, e2]


theorem addAll_values_aux (W : ℕ) (ps : List (ℚ × ℕ)) :
    ∀ (s : RollingStats) (l : List ℚ), s.window = W → s.values = takeLast W l →
      (addAll s ps).values = takeLast W (l ++ ps.map Prod.fst) := by
  induction ps with
  | nil =>
    intro s l _ hv
    simpa [addAll] using hv
  | cons p ps ih =>
    intro s l hw hv
    have hw' : (s.add p.1 p.2).window = W := by
      simp [RollingStats.add, hw]
    have hstep : (s.add p.1 p.2).values = takeLast W (l ++ [p.1]) := by
      simp [RollingStats.add, hw, hv, takeLast_append_singleton]
    have h := ih (s.add p.1 p.2) (l ++ [p.1]) hw' hstep
    simpa [addAll, List.append_assoc] using h

/-- C5: after any sequence of more than W additions to one rolling window,
the count is exactly W, the retained values are exactly the W
most-recently-added values in insertion order (the final suffix of the
added sequence), and no prefix of the additions ever leaves more than W
values in the window. -/
theorem rolling_window_eviction (W minObs : ℕ) (name : String)
    (ps : List (ℚ × ℕ)) (h : W < ps.length) :
    (addAll (RollingStats.mkStats name W minObs) ps).count = W ∧
    (addAll (RollingStats.mkStats name W minObs) ps).values
      = takeLast W (ps.map Prod.fst) ∧
    ∀ n, (addAll (RollingStats.mkStats name W minObs) (ps.take n)).count ≤ W := by
  have hbase : (RollingStats.mkStats name W minObs).values = takeLast W [] := by
    simp [RollingStats.mkStats, takeLast]
  have hvals := addAll_values_aux W ps (RollingStats.mkStats name W minObs) []
    rfl hbase
  simp only [List.nil_append] at hvals
  refine ⟨?_, hvals, ?_⟩
  · rw [RollingStats.count, hvals, takeLast_length, List.length_map]
    omega
  · intro n
    have hvn := addAll_values_aux W (ps.take n)
      (RollingStats.mkStats name W minObs) [] rfl hbase
    simp only [List.nil_append] at hvn
    rw [RollingStats.count, hvn, takeLast_length]
    omega

/-- Witness for C5 at W = 2, three additions 1, 2, 3: the window retains
[2, 3] and never exceeds two values. -/
theorem rolling_window_eviction_witness :
    2 < 3 ∧
    (addAll (RollingStats.mkStats "AP" 2 1) [(1, 0), (2, 1), (3, 2)]).count = 2 ∧
    (addAll (RollingStats.mkStats "AP" 2 1) [(1, 0), (2, 1), (3, 2)]).values
      = [2, 3] ∧
    (addAll (RollingStats.mkStats "AP" 2 1)
      ([(1, 0), (2, 1), (3, 2)].take 2)).count ≤ 2 := by
  have h := rolling_window_eviction 2 1 "AP" [(1, 0), (2, 1), (3, 2)]
    (by decide)
  exact ⟨by decide, h.1, h.2.1.trans (by decide), h.2.2 2⟩

/-- C6: for a tracked (entity, feature) window, a z-score query returns
`None` whenever the window holds fewer than `min_observations` values
(whatever the queried value); when the window is ready and its sample
standard deviation is nonzero, the z-score is exactly
(value - mean) / std, with no clipping at any magnitude. -/
theorem zscore_readiness_and_formula (sq : ℚ → ℚ)
    (c : SectorRollingCalculator) (t f : String) (s : RollingStats) (v : ℚ)
    (hs : c.get_stats t f = some s) :
    (s.count < s.min_observations → c.get_zscore sq t f v = none) ∧
    (∀ m sd, s.mean = some m → s.std sq = some sd → sd ≠ 0 →
      c.get_zscore sq t f v = some ((v - m) / sd)) := by
  constructor
  · intro hlt
    have hnr : s.is_ready = false := by
      simp only [RollingStats.is_ready, ge_iff_le, decide_eq_false_iff_not,
        not_le]
      exact hlt
    simp [SectorRollingCalculator.get_zscore, hs, hnr]
  · intro m sd hm hsd hne
    have hr : s.is_ready = true := by
      rcases Bool.eq_false_or_eq_true s.is_ready with hb | hb
      · exact hb
      · rw [RollingStats.mean, if_neg (by simp [hb])] at hm
        exact absurd hm (by simp)
    simp [SectorRollingCalculator.get_zscore, hs, hr, hm, hsd, hne]

/-- Witness for C6: on the spec's worked example (21-value window with mean
100 and standard deviation 10) the z-scores of 150, 50 and 110 are exactly
5, -5 and 1 - not clipped - and a 20-value window answers `None`. -/
theorem zscore_readiness_and_formula_witness :
    SectorRollingCalculator.get_zscore ratSqrt exampleCalc "XLK" "AP" 150
      = some 5 ∧
    SectorRollingCalculator.get_zscore ratSqrt exampleCalc "XLK" "AP" 50
      = some (-5) ∧
    SectorRollingCalculator.get_zscore ratSqrt exampleCalc "XLK" "AP" 110
      = some 1 ∧
    SectorRollingCalculator.get_zscore ratSqrt lowCalc "XLK" "AP" 5 = none := by
  refine ⟨?_, ?_, ?_, ?_⟩
  · exact ((zscore_readiness_and_formula ratSqrt exampleCalc "XLK" "AP"
      exampleStats 150 (by decide)).2 100 10 (by decide) (by decide)
      (by decide)).trans (by decide)
  · exact ((zscore_readiness_and_formula ratSqrt exampleCalc "XLK" "AP"
      exampleStats 50 (by decide)).2 100 10 (by decide) (by decide)
      (by decide)).trans (by decide)
  · exact ((zscore_readiness_and_formula ratSqrt exampleCalc "XLK" "AP"
      exampleStats 110 (by decide)).2 100 10 (by decide) (by decide)
      (by decide)).trans (by decide)
  · exact (zscore_readiness_and_formula ratSqrt lowCalc "XLK" "AP"
      lowStats 5 (by decide)).1 (by decide)

/-- C2 (amended): the two z-score code paths each have a fixed zero-std
behavior, but they differ from one another: `zscore_normalize`
(src/helios/normalization/methods.py) returns a defined 0.0 on zero
standard deviation, while `SectorRollingCalculator.get_zscore`
(src/helios/normalization/rolling.py) treats a ready window with zero
standard deviation as undefined and returns `None`. -/
theorem zero_std_two_behaviors (sq : ℚ → ℚ) (c : SectorRollingCalculator)
    (t f : String) (s : RollingStats) (v : ℚ)
    (hs : c.get_stats t f = some s) (hstd : s.std sq = some 0) :
    c.get_zscore sq t f v = none ∧
    ∀ value mean : ℚ, zscore_normalize value mean 0 = 0 := by
  have hr : s.is_ready = true := by
    rcases Bool.eq_false_or_eq_true s.is_ready with hb | hb
    · exact hb
    · rw [RollingStats.std, if_neg (by simp [hb])] at hstd
      exact absurd hstd (by simp)
  refine ⟨?_, fun value mean => by simp [zscore_normalize]⟩
  simp [SectorRollingCalculator.get_zscore, hs, hr, hstd, RollingStats.mean]

/-- Witness for C2 on a ready 21-value constant window (standard deviation
exactly zero): the rolling path answers `None` while the methods path
answers 0.0. -/
theorem zero_std_two_behaviors_witness :
    SectorRollingCalculator.get_zscore ratSqrt zeroStdCalc "XLK" "AP" 7
      = none ∧
    zscore_normalize 7 7 0 = 0 := by
  have h := zero_std_two_behaviors ratSqrt zeroStdCalc "XLK" "AP"
    zeroStdStats 7 (by decide) (by decide)
  exact ⟨h.1, h.2 7 7⟩

/-- Counterexample to C2 as stated: there is no single zero-std behavior
applied uniformly in every code path.  On the same zero-std baseline
(mean 7, std 0), `zscore_normalize` yields the defined z-score 0.0 while
`SectorRollingCalculator.get_zscore` yields undefined (`None`). -/
theorem zero_std_paths_disagree :
    zscore_normalize 9 7 0 = 0 ∧
    SectorRollingCalculator.get_zscore ratSqrt zeroStdCalc "XLK" "AP" 9
      = none := by
  decide

/-- C7: the composite score is the weighted sum, over the frozen weight
table (AP 0.60, RS 0.40), of weight times z-score for exactly the features
present in the input map; an absent feature contributes nothing (no
renormalization of the remaining weights), and the empty map scores
exactly 0. -/
theorem composite_weighted_sum :
    (∀ zs : List (String × ℚ),
      calculate_cas zs
        = 6/10 * ((zs.lookup "AP").getD 0) + 4/10 * ((zs.lookup "RS").getD 0)) ∧
    calculate_cas [("AP", 1), ("RS", 1)] = 1 ∧
    calculate_cas [("AP", 2)] = 6/5 ∧
    calculate_cas [] = 0 := by
  refine ⟨?_, by decide, by decide, by decide⟩
  intro zs
  simp only [calculate_cas, WEIGHTS, List.foldl]
  cases hA : zs.lookup "AP" <;> cases hR : zs.lookup "RS" <;>
    simp [hA, hR]

/-- C8: the classifier realizes exactly the five frozen, exhaustive,
non-overlapping intervals, with the boundaries placed as the spec states
(1.0 is ACCUMULATING, +-0.3 are NEUTRAL, -1.0 is DECREASING) and no clamp
on the extremes. -/
theorem classifier_intervals :
    (∀ s : ℚ,
      (classify_state s = AllocationState.OVERWEIGHT ↔ 1 < s) ∧
      (classify_state s = AllocationState.ACCUMULATING ↔ 3/10 < s ∧ s ≤ 1) ∧
      (classify_state s = AllocationState.NEUTRAL ↔ -(3/10) ≤ s ∧ s ≤ 3/10) ∧
      (classify_state s = AllocationState.DECREASING ↔ -1 ≤ s ∧ s < -(3/10)) ∧
      (classify_state s = AllocationState.UNDERWEIGHT ↔ s < -1)) ∧
    classify_state 1 = AllocationState.ACCUMULATING ∧
    classify_state (1 + 1/1000000) = AllocationState.OVERWEIGHT ∧
    classify_state (3/10) = AllocationState.NEUTRAL ∧
    classify_state (3/10 + 1/1000000) = AllocationState.ACCUMULATING ∧
    classify_state (-(3/10)) = AllocationState.NEUTRAL ∧
    classify_state (-(3/10) - 1/1000000) = AllocationState.DECREASING ∧
    classify_state (-1) = AllocationState.DECREASING ∧
    classify_state (-1 - 1/1000000) = AllocationState.UNDERWEIGHT ∧
    classify_state 100 = AllocationState.OVERWEIGHT ∧
    classify_state (-100) = AllocationState.UNDERWEIGHT := by
  refine ⟨?_, by decide, by decide, by decide, by decide, by decide,
    by decide, by decide, by decide, by decide, by decide⟩
  intro s
  simp only [classify_state, AllocationState.from_cas]
  split_ifs with h1 h2 h3 h4 <;>
    refine ⟨?_, ?_, ?_, ?_, ?_⟩ <;> simp <;>
    first
      | linarith
      | (intro h; linarith)
      | (constructor <;> linarith)

/-- C9: whenever an entity's baseline status for the day is INSUFFICIENT,
the per-sector calculation assigns NEUTRAL unconditionally, bypassing the
composite-score classifier. -/
theorem insufficient_forces_neutral (sq : ℚ → ℚ)
    (c : SectorRollingCalculator) (f : SectorFeatureSet)
    (h : (NormalizationPipeline.normalize_sector sq c f.ticker f).2.2
          = BaselineStatus.INSUFFICIENT) :
    (HeliosEngine.calculate_sector sq c f).1.state
      = AllocationState.NEUTRAL := by
  simp [HeliosEngine.calculate_sector, h]

/-- Witness for C9: with both raw features missing, the status is
INSUFFICIENT and the assigned state is NEUTRAL. -/
theorem insufficient_forces_neutral_witness :
    (NormalizationPipeline.normalize_sector ratSqrt
       NormalizationPipeline.freshCalc fEmpty.ticker fEmpty).2.2
      = BaselineStatus.INSUFFICIENT ∧
    (HeliosEngine.calculate_sector ratSqrt
       NormalizationPipeline.freshCalc fEmpty).1.state
      = AllocationState.NEUTRAL := by
  refine ⟨by decide, ?_⟩
  exact insufficient_forces_neutral ratSqrt NormalizationPipeline.freshCalc
    fEmpty (by decide)

/-- C4: the per-sector calculation publishes z-scores, status and score
computed from the rolling state as it was before the day's observation is
added: every published field is a function of the pre-update state, and the
state handed onward is exactly `add_observation` applied to the pre-update
state.  The closing conjuncts show the order is observable: on a window one
short of readiness the published status is INSUFFICIENT, while normalizing
the same day against the post-update baselines would yield COMPLETE. -/
theorem zscores_computed_before_update :
    (∀ (sq : ℚ → ℚ) (c : SectorRollingCalculator) (f : SectorFeatureSet),
      (HeliosEngine.calculate_sector sq c f).2
        = NormalizationPipeline.add_observation c f.ticker f ∧
      (HeliosEngine.calculate_sector sq c f).1.ap_zscore
        = ((NormalizationPipeline.normalize_sector sq c f.ticker f).1.lookup
            "AP").getD 0 ∧
      (HeliosEngine.calculate_sector sq c f).1.rs_zscore
        = ((NormalizationPipeline.normalize_sector sq c f.ticker f).1.lookup
            "RS").getD 0 ∧
      (HeliosEngine.calculate_sector sq c f).1.status
        = (NormalizationPipeline.normalize_sector sq c f.ticker f).2.2 ∧
      (HeliosEngine.calculate_sector sq c f).1.allocation_score
        = calculate_cas (NormalizationPipeline.normalize_sector sq c f.ticker f).1) ∧
    (HeliosEngine.calculate_sector ratSqrt calc20 f20).1.status
      = BaselineStatus.INSUFFICIENT ∧
    (NormalizationPipeline.normalize_sector ratSqrt
       (NormalizationPipeline.add_observation calc20 f20.ticker f20)
       f20.ticker f20).2.2
      = BaselineStatus.COMPLETE := by
  refine ⟨fun sq c f => ⟨rfl, rfl, rfl, rfl, rfl⟩, by decide, by decide⟩

theorem normalize_excluded_lookup_none (sq : ℚ → ℚ)
    (c : SectorRollingCalculator) (t : String) (f : SectorFeatureSet)
    (name : String)
    (h : name ∈ (NormalizationPipeline.normalize_sector sq c t f).2.1) :
    (NormalizationPipeline.normalize_sector sq c t f).1.lookup name = none := by
  rcases hnf : f.net_flow with _ | v <;> rcases her : f.excess_return with _ | w
  · simp_all [NormalizationPipeline.normalize_sector,
      NormalizationPipeline.normStep, hnf, her, List.lookup]
  · rcases hz : c.get_zscore sq t "RS" w with _ | z <;>
      simp_all [NormalizationPipeline.normalize_sector,
        NormalizationPipeline.normStep, hnf, her, hz, List.lookup]
  · rcases hz : c.get_zscore sq t "AP" v with _ | z <;>
      simp_all [NormalizationPipeline.normalize_sector,
        NormalizationPipeline.normStep, hnf, her, hz, List.lookup]
  · rcases hza : c.get_zscore sq t "AP" v with _ | za <;>
      rcases hzr : c.get_zscore sq t "RS" w with _ | zr <;>
      simp_all [NormalizationPipeline.normalize_sector,
        NormalizationPipeline.normStep, hnf, her, hza, hzr, List.lookup]

/-- C10: a missing raw feature is recorded in the per-sector result as the
number 0.0 in the raw-value field (`x or 0.0`), and an excluded feature is
recorded as the number 0.0 in the z-score field (`dict.get(name, 0.0)`) -
never as a missing marker. -/
theorem missing_features_stored_as_zero (sq : ℚ → ℚ)
    (c : SectorRollingCalculator) (f : SectorFeatureSet) :
    (f.net_flow = none → (HeliosEngine.calculate_sector sq c f).1.ap_raw = 0) ∧
    (f.excess_return = none →
      (HeliosEngine.calculate_sector sq c f).1.rs_raw = 0) ∧
    ("AP" ∈ (NormalizationPipeline.normalize_sector sq c f.ticker f).2.1 →
      (HeliosEngine.calculate_sector sq c f).1.ap_zscore = 0) ∧
    ("RS" ∈ (NormalizationPipeline.normalize_sector sq c f.ticker f).2.1 →
      (HeliosEngine.calculate_sector sq c f).1.rs_zscore = 0) := by
  refine ⟨?_, ?_, ?_, ?_⟩
  · intro h
    simp [HeliosEngine.calculate_sector, h]
  · intro h
    simp [HeliosEngine.calculate_sector, h]
  · intro h
    have hl := normalize_excluded_lookup_none sq c f.ticker f "AP" h
    simp [HeliosEngine.calculate_sector, hl]
  · intro h
    have hl := normalize_excluded_lookup_none sq c f.ticker f "RS" h
    simp [HeliosEngine.calculate_sector, hl]

/-- Witness for C10: a day with a missing raw net flow and a present excess
return over a fresh baseline records ap_raw = 0, ap_zscore = 0 (AP is
excluded) and rs_zscore = 0 (RS is excluded for insufficient history). -/
theorem missing_features_stored_as_zero_witness :
    ({ ticker := "XLK", trade_date := 0, excess_return := some 2 }
        : SectorFeatureSet).net_flow = none ∧
    "AP" ∈ (NormalizationPipeline.normalize_sector ratSqrt
      NormalizationPipeline.freshCalc "XLK"
      { ticker := "XLK", trade_date := 0, excess_return := some 2 }).2.1 ∧
    (HeliosEngine.calculate_sector ratSqrt NormalizationPipeline.freshCalc
      { ticker := "XLK", trade_date := 0, excess_return := some 2 }).1.ap_raw
      = 0 ∧
    (HeliosEngine.calculate_sector ratSqrt NormalizationPipeline.freshCalc
      { ticker := "XLK", trade_date := 0, excess_return := some 2 }).1.ap_zscore
      = 0 := by
  have h := missing_features_stored_as_zero ratSqrt
    NormalizationPipeline.freshCalc
    { ticker := "XLK", trade_date := 0, excess_return := some 2 }
  exact ⟨by decide, by decide, h.1 (by decide), h.2.2.1 (by decide)⟩

/-- C1 (evaluation at the failing input): with no benchmark series at all,
or a benchmark series of fewer than two rows, the backfill run returns a
single aggregate result with no scored entities and does not raise - but
its overall status is COMPLETE (Python's `all(...)` over the empty list of
per-sector statuses is vacuously true), not INSUFFICIENT as the spec
states. -/
theorem no_benchmark_gives_vacuous_complete :
    (DailyPipeline.run ratSqrt none [] 22 7).1.sectors = [] ∧
    (DailyPipeline.run ratSqrt none [] 22 7).1.status
      = BaselineStatus.COMPLETE ∧
    (DailyPipeline.run ratSqrt none pricesOneSpyRow 22 7).1.sectors = [] ∧
    (DailyPipeline.run ratSqrt none pricesOneSpyRow 22 7).1.status
      = BaselineStatus.COMPLETE := by
  decide

set_option maxRecDepth 2000000 in
set_option maxHeartbeats 4000000 in
/-- Counterexample to C3: two backfill runs over the identical price
tables `pricesEx`, the second starting from the history file the first
left behind, persist different history files. -/
theorem backfill_rerun_not_byte_identical :
    (DailyPipeline.run ratSqrt none pricesEx 22 7).2 ≠
      (DailyPipeline.run ratSqrt (DailyPipeline.run ratSqrt none pricesEx 22 7).2
        pricesEx 22 7).2 := by
  decide

set_option maxRecDepth 2000000 in
set_option maxHeartbeats 4000000 in
/-- C3 (amended): the second run loads the first run's persisted raw values
into the rolling windows and then re-adds the same observations while
replaying the days, so its windows reach readiness earlier and the scored
rows differ: on the first scored day the XLK row is INSUFFICIENT in the
first run's output but COMPLETE in the second run's. -/
theorem backfill_rerun_prewarms_windows :
    (DailyPipeline.run ratSqrt none pricesEx 22 7).2 = some run1HistEx ∧
    (findHistRow run1HistEx 1 "XLK").map (fun r => r.status)
      = some BaselineStatus.INSUFFICIENT ∧
    (findHistRow run2HistEx 1 "XLK").map (fun r => r.status)
      = some BaselineStatus.COMPLETE := by
  refine ⟨by decide, by decide, by decide⟩
